import Mathlib

/-!
# pykafka `_rd_kafkamodule.c`: the `Consumer` extension type

A shallow embedding of `src/pykafka/rdkafka/_rd_kafkamodule.c`.

* The `Consumer` struct becomes a record of optional handles (`none` is `NULL`).
* librdkafka is an external collaborator. Its answers are given by a record
  `RdKafka` of return values, and every call the C code makes to it is appended
  to a list of `Call` events, so that the order of calls can be stated.
* Python objects are modelled as far as the integer conversions can tell them
  apart; C integers are `Int` with explicit wrap-around at the width of the C
  type (`long` and `long long` are 64 bits, `int` and `int32_t` are 32 bits).
-/

namespace Pykafka

/-! ## Values -/

/-- Native pointer returned by librdkafka; an absent handle (`NULL`) is `none`
of `Option Handle`. -/
abbrev Handle := Nat

/-- Python object as seen by `PyInt_AsLong` / `PyLong_AsLongLong`: either an
integer of arbitrary size (Python `int` or `long`), or an object that has no
integer conversion. -/
inductive PyObject where
  | int (v : Int)
  | other
  deriving DecidableEq, Repr

/-- Python object received through the `O` format: a sequence with its items,
or an object that is not a sequence. -/
inductive PyArg where
  | seq (items : List PyObject)
  | nonseq
  deriving DecidableEq, Repr

def LONG_MIN : Int := -9223372036854775808
def LONG_MAX : Int := 9223372036854775807
def INT_MIN : Int := -2147483648
def INT_MAX : Int := 2147483647

/-- Conversion of a C integer to `int32_t` (two's complement wrap-around), as
in `int32_t part_id = PyInt_AsLong(...)` and in passing a `long` for an
`int32_t` parameter. -/
def to_int32 (v : Int) : Int := (v + 2147483648) % 4294967296 - 2147483648

/-- Result of a CPython integer conversion: the C value and whether the error
indicator was set by the call. -/
structure Conv where
  val : Int
  err : Bool
  deriving DecidableEq, Repr

/-- The function `PyInt_AsLong`: the value when the object is an integer that
fits a C `long`, otherwise `-1` with the error indicator set. -/
def PyInt_AsLong : PyObject → Conv
  | .int v => if LONG_MIN ≤ v ∧ v ≤ LONG_MAX then ⟨v, false⟩ else ⟨-1, true⟩
  | .other => ⟨-1, true⟩

/-- The function `PyLong_AsLongLong`: the value when the object is an integer
that fits a C `long long`, otherwise `-1` with the error indicator set. -/
def PyLong_AsLongLong : PyObject → Conv
  | .int v => if LONG_MIN ≤ v ∧ v ≤ LONG_MAX then ⟨v, false⟩ else ⟨-1, true⟩
  | .other => ⟨-1, true⟩

/-- The function `PySequence_List`: a new list holding the items of the
sequence, `none` (`NULL`) when the object is not a sequence. -/
def PySequence_List : PyArg → Option (List PyObject)
  | .seq items => some items
  | .nonseq => none

/-- The function `PySequence_GetItem`: the item at index `i`, `none` (`NULL`)
when the index is out of range or the object is not a sequence. -/
def PySequence_GetItem : PyArg → Nat → Option PyObject
  | .seq items, i => items.get? i
  | .nonseq, _ => none

/-- The struct `rd_kafka_message_t`, the fields the module reads. A `NULL`
`payload` or `key` pointer is `none`; `len` and `key_len` are the lengths of
the byte lists. -/
structure rd_kafka_message_t where
  err : Int
  payload : Option (List Nat)
  key : Option (List Nat)
  partition : Int
  offset : Int
  deriving DecidableEq, Repr

/-! ## The collaborator -/

/-- What librdkafka answers. The fetch start and stop answers are indexed by
the number of earlier calls to the same function (0 for the first call). -/
structure RdKafka where
  rd_kafka_new : Option Handle
  rd_kafka_brokers_add : Nat
  rd_kafka_topic_new : Option Handle
  rd_kafka_queue_new : Option Handle
  rd_kafka_consume_start_queue : Nat → Int
  rd_kafka_consume_stop : Nat → Int
  rd_kafka_consume_queue : Option Handle → Int → Option rd_kafka_message_t

/-- One call made to librdkafka, with its arguments and its return value. -/
inductive Call where
  | rd_kafka_conf_new
  | rd_kafka_new (ret : Option Handle)
  | rd_kafka_brokers_add (rk : Handle) (brokers : String) (ret : Nat)
  | rd_kafka_topic_conf_new
  | rd_kafka_topic_new (rk : Handle) (topic : String) (ret : Option Handle)
  | rd_kafka_queue_new (rk : Handle) (ret : Option Handle)
  | rd_kafka_consume_start_queue (rkt : Option Handle) (partition : Int)
      (offset : Int) (rkqu : Handle) (ret : Int)
  | rd_kafka_consume_stop (rkt : Handle) (partition : Int) (ret : Int)
  | rd_kafka_topic_destroy (rkt : Handle)
  | rd_kafka_queue_destroy (rkqu : Handle)
  | rd_kafka_destroy (rk : Handle)
  | rd_kafka_consume_queue (rkqu : Option Handle) (timeout_ms : Int)
      (ret : Option rd_kafka_message_t)
  | rd_kafka_message_destroy (rkmessage : rd_kafka_message_t)
  deriving DecidableEq, Repr

/-! ## The session object -/

/-- The struct `Consumer`. -/
structure Consumer where
  rdk_handle : Option Handle
  rdk_queue_handle : Option Handle
  rdk_topic_handle : Option Handle
  partition_ids : Option (List PyObject)
  deriving DecidableEq, Repr

/-- The object `tp_new = PyType_GenericNew` allocates: every field zeroed. -/
def Consumer_new : Consumer :=
  { rdk_handle := none, rdk_queue_handle := none, rdk_topic_handle := none,
    partition_ids := none }

/-! ## `Consumer_dealloc` -/

/-- The `for` loop of `Consumer_dealloc` over the items of the snapshot that
are still to be visited; `n` counts the stop calls made so far. An item that
converts to `-1` is skipped, and the loop goes on whatever the stop returns. -/
def Consumer_dealloc_loop (K : RdKafka) (rkt : Handle) :
    List PyObject → Nat → List Call
  | [], _ => []
  | item :: rest, n =>
    let part_id := (PyInt_AsLong item).val
    if part_id = -1 then
      Consumer_dealloc_loop K rkt rest n
    else
      Call.rd_kafka_consume_stop rkt (to_int32 part_id) (K.rd_kafka_consume_stop n)
        :: Consumer_dealloc_loop K rkt rest (n + 1)

/-- The function `Consumer_dealloc` up to (not including) `tp_free`: the
fields it leaves and the calls it made. `none` is the undefined behaviour of
`PyList_Size(NULL)`, when a topic handle is present without a snapshot. -/
def Consumer_dealloc (K : RdKafka) (self : Consumer) : Option (Consumer × List Call) :=
  let step1 : Option (Consumer × List Call) :=
    match self.rdk_topic_handle with
    | none => some (self, [])
    | some rkt =>
      match self.partition_ids with
      | none => none
      | some ids =>
        some ({ self with partition_ids := none, rdk_topic_handle := none },
              Consumer_dealloc_loop K rkt ids 0 ++ [Call.rd_kafka_topic_destroy rkt])
  match step1 with
  | none => none
  | some (self, calls) =>
    let (self, calls) :=
      match self.rdk_queue_handle with
      | none => (self, calls)
      | some rkqu =>
        ({ self with rdk_queue_handle := none }, calls ++ [Call.rd_kafka_queue_destroy rkqu])
    let (self, calls) :=
      match self.rdk_handle with
      | none => (self, calls)
      | some rk =>
        ({ self with rdk_handle := none }, calls ++ [Call.rd_kafka_destroy rk])
    some (self, calls)

/-! ## `Consumer_init` -/

/-- The four arguments `PyArg_ParseTupleAndKeywords` extracts with `"ssOO"`. -/
structure InitArgs where
  brokers : String
  topic_name : String
  partition_ids : PyArg
  start_offsets : PyArg
  deriving DecidableEq, Repr

/-- Outcome of `Consumer_init`: the C return value (`0` success, `-1`
failure), the fields of `self` on return, and the calls made. -/
structure InitResult where
  ret : Int
  self : Consumer
  calls : List Call
  deriving DecidableEq, Repr

/-- The `for` loop of `Consumer_init` over the items of the snapshot still to
be visited. `i` is the loop index, which is also the number of start calls
made so far (every earlier iteration made exactly one), and `pyerr` is the
CPython error indicator as `PyErr_Occurred()` reads it. Returns the value
`Consumer_init` returns and the calls made. -/
def Consumer_init_loop (K : RdKafka) (rkt : Option Handle) (rkqu : Handle)
    (start_offsets : PyArg) : List PyObject → Nat → Bool → Int × List Call
  | [], _, _ => (0, [])
  | item :: rest, i, pyerr =>
    let c := PyInt_AsLong item
    let part_id := to_int32 c.val
    let pyerr := pyerr || c.err
    if part_id = -1 ∧ pyerr = true then (-1, [])
    else
      match PySequence_GetItem start_offsets i with
      | none => (-1, [])
      | some offset_obj =>
        let o := PyLong_AsLongLong offset_obj
        let pyerr := pyerr || o.err
        let r := K.rd_kafka_consume_start_queue i
        let call := Call.rd_kafka_consume_start_queue rkt part_id o.val rkqu r
        if r = -1 then (-1, [call])
        else
          let next := Consumer_init_loop K rkt rkqu start_offsets rest (i + 1) pyerr
          (next.1, call :: next.2)

/-- The function `Consumer_init`. `args` is the outcome of
`PyArg_ParseTupleAndKeywords` (`none` when parsing fails); the error indicator
is clear on entry. -/
def Consumer_init (K : RdKafka) (self : Consumer) (args : Option InitArgs) : InitResult :=
  match args with
  | none => ⟨-1, self, []⟩
  | some a =>
    match self.partition_ids with
    | some _ => ⟨-1, self, []⟩
    | none =>
      match PySequence_List a.partition_ids with
      | none => ⟨-1, self, []⟩
      | some ids =>
        let self := { self with partition_ids := some ids }
        let self := { self with rdk_handle := K.rd_kafka_new }
        let calls := [Call.rd_kafka_conf_new, Call.rd_kafka_new K.rd_kafka_new]
        match K.rd_kafka_new with
        | none => ⟨0, self, calls⟩
        | some rk =>
          let calls := calls ++ [Call.rd_kafka_brokers_add rk a.brokers K.rd_kafka_brokers_add]
          if K.rd_kafka_brokers_add = 0 then ⟨0, self, calls⟩
          else
            let self := { self with rdk_topic_handle := K.rd_kafka_topic_new }
            let calls := calls ++ [Call.rd_kafka_topic_conf_new,
              Call.rd_kafka_topic_new rk a.topic_name K.rd_kafka_topic_new]
            let self := { self with rdk_queue_handle := K.rd_kafka_queue_new }
            let calls := calls ++ [Call.rd_kafka_queue_new rk K.rd_kafka_queue_new]
            match K.rd_kafka_queue_new with
            | none => ⟨0, self, calls⟩
            | some rkqu =>
              let loop :=
                Consumer_init_loop K K.rd_kafka_topic_new rkqu a.start_offsets ids 0 false
              ⟨loop.1, self, calls ++ loop.2⟩

/-! ## `Consumer_consume` -/

/-- What `Consumer_consume` hands back to the interpreter: `NULL` with an
exception set, `Py_None`, or the tuple built by `Py_BuildValue("s#s#lL", ...)`
(an `s#` item is `None` when its pointer is `NULL`; the `l` item is what
`Py_BuildValue_l` reads). -/
inductive ConsumeResult where
  | error
  | none
  | tuple (payload : Option (List Nat)) (key : Option (List Nat))
      (partition : Int) (offset : Int)
  deriving DecidableEq, Repr

/-- Parsing of the argument tuple with format `"i"`: an integer that fits a C
`int`, otherwise failure. -/
def PyArg_ParseTuple_i : PyObject → Option Int
  | .int v => if INT_MIN ≤ v ∧ v ≤ INT_MAX then some v else Option.none
  | .other => Option.none

/-- The format unit `l` of `Py_BuildValue` given the `int32_t` field
`rkmessage->partition`: the argument is passed as a 32-bit `int` and read back
as a 64-bit `long`, so its 32 bits come back zero-extended (a negative
partition `p` as `2^32 + p`). -/
def Py_BuildValue_l (partition : Int) : Int := partition % 4294967296

/-- The function `Consumer_consume`: the value returned and the calls made. -/
def Consumer_consume (K : RdKafka) (self : Consumer) (arg : PyObject) :
    ConsumeResult × List Call :=
  match PyArg_ParseTuple_i arg with
  | Option.none => (ConsumeResult.error, [])
  | some timeout_ms =>
    let rkmessage := K.rd_kafka_consume_queue self.rdk_queue_handle timeout_ms
    let poll := Call.rd_kafka_consume_queue self.rdk_queue_handle timeout_ms rkmessage
    match rkmessage with
    | Option.none => (ConsumeResult.none, [poll])
    | some m =>
      (ConsumeResult.tuple m.payload m.key (Py_BuildValue_l m.partition) m.offset,
       [poll, Call.rd_kafka_message_destroy m])

/-! ## Observations on call sequences -/

/-- The fetch starts in a call sequence: partition, offset and return value. -/
def startCalls : List Call → List (Int × Int × Int)
  | [] => []
  | Call.rd_kafka_consume_start_queue _ p o _ r :: cs => (p, o, r) :: startCalls cs
  | _ :: cs => startCalls cs

/-- The partitions of the fetch stops in a call sequence. -/
def stopCalls : List Call → List Int
  | [] => []
  | Call.rd_kafka_consume_stop _ p _ :: cs => p :: stopCalls cs
  | _ :: cs => stopCalls cs

/-- The partitions `Consumer_dealloc` asks to stop for a snapshot: the items
that convert to a C `long` other than `-1`, passed as `int32_t`. -/
def stopTargets (ids : List PyObject) : List Int :=
  (ids.filter (fun item => (PyInt_AsLong item).val ≠ -1)).map
    (fun item => to_int32 (PyInt_AsLong item).val)

/-- The partition-end-of-data code `RD_KAFKA_RESP_ERR__PARTITION_EOF`. -/
def RD_KAFKA_RESP_ERR__PARTITION_EOF : Int := -191

/-- A collaborator for which every call succeeds (handles 1, 2, 3; no message
is pending). -/
def okLib : RdKafka :=
  { rd_kafka_new := some 1, rd_kafka_brokers_add := 1, rd_kafka_topic_new := some 2,
    rd_kafka_queue_new := some 3, rd_kafka_consume_start_queue := fun _ => 0,
    rd_kafka_consume_stop := fun _ => 0, rd_kafka_consume_queue := fun _ _ => Option.none }

/-- A collaborator like `okLib` whose queue holds the message `m`. -/
def pendingLib (m : rd_kafka_message_t) : RdKafka :=
  { okLib with rd_kafka_consume_queue := fun _ _ => some m }

/-- An ordinary record: payload `hi`, no key, partition 1, offset 42. -/
def recordMessage : rd_kafka_message_t :=
  { err := 0, payload := some [104, 105], key := Option.none, partition := 1, offset := 42 }

/-- The end-of-partition event of partition 1 at offset 42, with the same
payload bytes as `recordMessage`. -/
def eofMessage : rd_kafka_message_t :=
  { recordMessage with err := RD_KAFKA_RESP_ERR__PARTITION_EOF }

/-- A live session over partition 1, with the handles `okLib` hands out. -/
def liveSession : Consumer :=
  { rdk_handle := some 1, rdk_queue_handle := some 3, rdk_topic_handle := some 2,
    partition_ids := some [.int 1] }

/-- A collaborator like `okLib` that cannot create the client handle. -/
def noClientLib : RdKafka := { okLib with rd_kafka_new := Option.none }

/-- A collaborator like `okLib` that can add no broker. -/
def noBrokerLib : RdKafka := { okLib with rd_kafka_brokers_add := 0 }

/-- A collaborator like `okLib` that cannot open the topic. -/
def noTopicLib : RdKafka := { okLib with rd_kafka_topic_new := Option.none }

/-- A collaborator like `okLib` that cannot create the queue. -/
def noQueueLib : RdKafka := { okLib with rd_kafka_queue_new := Option.none }

/-- A collaborator like `okLib` that rejects the second fetch start. -/
def rejectSecondStartLib : RdKafka :=
  { okLib with rd_kafka_consume_start_queue := fun i => if i = 1 then -1 else 0 }

/-- A collaborator like `okLib` whose first fetch stop fails. -/
def failFirstStopLib : RdKafka :=
  { okLib with rd_kafka_consume_stop := fun n => if n = 0 then -1 else 0 }

/-! ## Conversions on in-range integers -/

theorem to_int32_of_range (v : Int) (h : INT_MIN ≤ v ∧ v ≤ INT_MAX) : to_int32 v = v := by
  unfold INT_MIN INT_MAX at h
  unfold to_int32
  omega

theorem PyInt_AsLong_of_long (v : Int) (h : LONG_MIN ≤ v ∧ v ≤ LONG_MAX) :
    PyInt_AsLong (.int v) = ⟨v, false⟩ := by
  simp [PyInt_AsLong, h]

theorem PyLong_AsLongLong_of_long (v : Int) (h : LONG_MIN ≤ v ∧ v ≤ LONG_MAX) :
    PyLong_AsLongLong (.int v) = ⟨v, false⟩ := by
  simp [PyLong_AsLongLong, h]

theorem long_of_int32 (v : Int) (h : INT_MIN ≤ v ∧ v ≤ INT_MAX) :
    LONG_MIN ≤ v ∧ v ≤ LONG_MAX := by
  unfold INT_MIN INT_MAX at h
  unfold LONG_MIN LONG_MAX
  omega

/-- The start loop on in-range integers when every start succeeds: it runs to
the end, returns `0`, and makes one start per remaining index. -/
theorem Consumer_init_loop_all_ok (K : RdKafka) (rkt : Option Handle) (rkqu : Handle)
    (offs : List Int) (hoffs : ∀ o ∈ offs, LONG_MIN ≤ o ∧ o ≤ LONG_MAX) :
    ∀ (ids : List Int) (i : Nat),
      (∀ v ∈ ids, INT_MIN ≤ v ∧ v ≤ INT_MAX) →
      i + ids.length ≤ offs.length →
      (∀ j, i ≤ j → j < i + ids.length → K.rd_kafka_consume_start_queue j ≠ -1) →
      Consumer_init_loop K rkt rkqu (.seq (offs.map .int)) (ids.map .int) i false
        = (0, ((ids.zip (offs.drop i)).enumFrom i).map (fun x =>
            Call.rd_kafka_consume_start_queue rkt x.2.1 x.2.2 rkqu
              (K.rd_kafka_consume_start_queue x.1))) := by
  intro ids
  induction ids with
  | nil => intro i _ _ _; simp [Consumer_init_loop]
  | cons v vs ih =>
    intro i hids hlen hstart
    have hv := hids v (by simp)
    have hi : i < offs.length := by simp at hlen; omega
    have hdrop : offs.drop i = offs[i] :: offs.drop (i + 1) := List.drop_eq_getElem_cons hi
    have ho := hoffs offs[i] (List.getElem_mem hi)
    have hs := hstart i (Nat.le_refl i) (by simp)
    have ih2 := ih (i + 1) (fun w hw => hids w (by simp [hw])) (by simp at hlen ⊢; omega)
      (fun j h1 h2 => hstart j (by omega) (by simp; omega))
    have hget : (List.map PyObject.int offs).get? i = some (PyObject.int offs[i]) := by
      simp [List.getElem?_eq_getElem hi]
    simp only [List.map_cons, Consumer_init_loop, PyInt_AsLong_of_long v (long_of_int32 v hv),
      to_int32_of_range v hv, PySequence_GetItem, hget, PyLong_AsLongLong_of_long _ ho,
      Bool.or_false, Bool.false_eq_true, and_false, if_false, hs, ih2, hdrop,
      List.zip_cons_cons, List.enumFrom_cons, List.map_cons]

/-- The start loop when the fetch start number `i + k` is made and is the
first one rejected: the loop returns `-1` after exactly `k + 1` starts, and the
start number `m` is the one for the item and the offset at that index. -/
theorem Consumer_init_loop_first_reject (K : RdKafka) (rkt : Option Handle) (rkqu : Handle)
    (start_offsets : PyArg) :
    ∀ (rest : List PyObject) (i : Nat) (pyerr : Bool) (k : Nat),
      k < (startCalls (Consumer_init_loop K rkt rkqu start_offsets rest i pyerr).2).length →
      K.rd_kafka_consume_start_queue (i + k) = -1 →
      (∀ m, m < k → K.rd_kafka_consume_start_queue (i + m) ≠ -1) →
      (Consumer_init_loop K rkt rkqu start_offsets rest i pyerr).1 = -1
      ∧ (startCalls (Consumer_init_loop K rkt rkqu start_offsets rest i pyerr).2).length = k + 1
      ∧ ∀ m, m ≤ k → ∃ item off,
          rest[m]? = some item ∧ PySequence_GetItem start_offsets (i + m) = some off
          ∧ (startCalls (Consumer_init_loop K rkt rkqu start_offsets rest i pyerr).2)[m]?
              = some (to_int32 (PyInt_AsLong item).val, (PyLong_AsLongLong off).val,
                      K.rd_kafka_consume_start_queue (i + m)) := by
  intro rest
  induction rest with
  | nil => intro i pyerr k h; simp [Consumer_init_loop, startCalls] at h
  | cons item rest ih =>
    intro i pyerr k hreach hk hfirst
    unfold Consumer_init_loop at hreach ⊢
    simp only at hreach ⊢
    split at hreach
    · simp [startCalls] at hreach
    · rename_i hguard
      rw [if_neg hguard]
      cases hget : PySequence_GetItem start_offsets i with
      | none => simp [hget, startCalls] at hreach
      | some off =>
        simp only [hget] at hreach ⊢
        by_cases hr : K.rd_kafka_consume_start_queue i = -1
        · simp only [hr, if_true, startCalls, List.length_singleton] at hreach ⊢
          have hk0 : k = 0 := by omega
          subst hk0
          refine ⟨trivial, rfl, ?_⟩
          intro m hm
          have hm0 : m = 0 := by omega
          subst hm0
          exact ⟨item, off, by simp, hget, by simp [hr]⟩
        · simp only [hr, if_false, startCalls, List.length_cons] at hreach ⊢
          have hkpos : k ≠ 0 := by
            intro h0
            subst h0
            exact hr hk
          obtain ⟨k1, rfl⟩ := Nat.exists_eq_succ_of_ne_zero hkpos
          have hidx : ∀ m, i + 1 + m = i + (m + 1) := fun m => by omega
          have ih2 := ih (i + 1) (pyerr || (PyInt_AsLong item).err || (PyLong_AsLongLong off).err)
            k1 (by omega) (by rw [hidx]; exact hk)
            (fun m hm => by rw [hidx]; exact hfirst (m + 1) (by omega))
          obtain ⟨h1, h2, h3⟩ := ih2
          refine ⟨h1, by omega, ?_⟩
          intro m hm
          cases m with
          | zero => exact ⟨item, off, by simp, hget, by simp⟩
          | succ m1 =>
            obtain ⟨it, of, ha, hb, hc⟩ := h3 m1 (by omega)
            rw [hidx m1] at hb hc
            exact ⟨it, of, by simpa using ha, hb, by simpa using hc⟩

/-- The start loop reaches the fetch start number `i + k` when, for each of
the `k + 1` next indices, the item and the offset exist, the item converts,
and no conversion error is pending where the item converts to partition `-1`,
and the starts before it succeed. -/
theorem Consumer_init_loop_reaches (K : RdKafka) (rkt : Option Handle) (rkqu : Handle)
    (start_offsets : PyArg) :
    ∀ (rest : List PyObject) (i : Nat) (pyerr : Bool) (k : Nat),
      (∀ m, m ≤ k → ∃ item off,
          rest[m]? = some item ∧ PySequence_GetItem start_offsets (i + m) = some off
          ∧ (PyInt_AsLong item).err = false
          ∧ (to_int32 (PyInt_AsLong item).val = -1 →
              pyerr = false ∧ ∀ j, j < m → ∀ offj,
                PySequence_GetItem start_offsets (i + j) = some offj →
                (PyLong_AsLongLong offj).err = false)) →
      (∀ m, m < k → K.rd_kafka_consume_start_queue (i + m) ≠ -1) →
      k < (startCalls (Consumer_init_loop K rkt rkqu start_offsets rest i pyerr).2).length := by
  intro rest
  induction rest with
  | nil =>
    intro i pyerr k hitems _
    obtain ⟨item, off, h, _⟩ := hitems 0 (Nat.zero_le k)
    simp at h
  | cons item rest ih =>
    intro i pyerr k hitems hfirst
    obtain ⟨item0, off, h0, hget, herr, hguard⟩ := hitems 0 (Nat.zero_le k)
    simp only [List.getElem?_cons_zero, Option.some.injEq] at h0
    subst h0
    simp only [Nat.add_zero] at hget
    have hnot : ¬(to_int32 (PyInt_AsLong item).val = -1
        ∧ (pyerr || (PyInt_AsLong item).err) = true) := by
      rintro ⟨h1, h2⟩
      have := (hguard h1).1
      simp [this, herr] at h2
    unfold Consumer_init_loop
    simp only [if_neg hnot, hget]
    by_cases hr : K.rd_kafka_consume_start_queue i = -1
    · have hk0 : k = 0 := by
        by_contra hne
        exact hfirst 0 (Nat.pos_of_ne_zero hne) (by simpa using hr)
      subst hk0
      simp [hr, startCalls]
    · simp only [hr, if_false, startCalls, List.length_cons]
      cases k with
      | zero => omega
      | succ k1 =>
        have hidx : ∀ m, i + 1 + m = i + (m + 1) := fun m => by omega
        have ih2 := ih (i + 1)
          (pyerr || (PyInt_AsLong item).err || (PyLong_AsLongLong off).err) k1
          (fun m hm => by
            obtain ⟨it, of, ha, hb, hc, hd⟩ := hitems (m + 1) (by omega)
            refine ⟨it, of, by simpa using ha, by rw [hidx]; exact hb, hc, ?_⟩
            intro h1
            obtain ⟨hp, hall⟩ := hd h1
            have ho : (PyLong_AsLongLong off).err = false :=
              hall 0 (by omega) off (by simpa using hget)
            refine ⟨by simp [hp, herr, ho], ?_⟩
            intro j hj offj hgj
            rw [hidx] at hgj
            exact hall (j + 1) (by omega) offj hgj)
          (fun m hm => by rw [hidx]; exact hfirst (m + 1) (by omega))
        omega

/-! ## Teardown loop -/

theorem stopCalls_append (xs ys : List Call) :
    stopCalls (xs ++ ys) = stopCalls xs ++ stopCalls ys := by
  induction xs with
  | nil => rfl
  | cons c cs ih => cases c <;> simp [stopCalls, ih]

/-- The stop loop on ids that fit `int32_t` and are not `-1`: one stop per
item, in order, whatever the stops return. -/
theorem Consumer_dealloc_loop_in_range (K : RdKafka) (rkt : Handle) :
    ∀ (ids : List Int) (n : Nat),
      (∀ v ∈ ids, INT_MIN ≤ v ∧ v ≤ INT_MAX ∧ v ≠ -1) →
      Consumer_dealloc_loop K rkt (ids.map .int) n
        = (ids.enumFrom n).map (fun x =>
            Call.rd_kafka_consume_stop rkt x.2 (K.rd_kafka_consume_stop x.1)) := by
  intro ids
  induction ids with
  | nil => intro n _; simp [Consumer_dealloc_loop]
  | cons v vs ih =>
    intro n hids
    have hv := hids v (by simp)
    have hv32 : INT_MIN ≤ v ∧ v ≤ INT_MAX := ⟨hv.1, hv.2.1⟩
    have hne : v ≠ -1 := hv.2.2
    simp [Consumer_dealloc_loop, PyInt_AsLong_of_long v (long_of_int32 v hv32),
      to_int32_of_range v hv32, hne, ih (n + 1) (fun w hw => hids w (by simp [hw]))]

/-- The stops of the stop loop are the stop targets of the snapshot. -/
theorem stopCalls_Consumer_dealloc_loop (K : RdKafka) (rkt : Handle) :
    ∀ (ids : List PyObject) (n : Nat),
      stopCalls (Consumer_dealloc_loop K rkt ids n) = stopTargets ids := by
  intro ids
  induction ids with
  | nil => intro n; simp [Consumer_dealloc_loop, stopCalls, stopTargets]
  | cons item rest ih =>
    intro n
    by_cases h : (PyInt_AsLong item).val = -1
    · have := ih n
      simp [Consumer_dealloc_loop, h, stopTargets] at this ⊢
      exact this
    · have := ih (n + 1)
      simp [Consumer_dealloc_loop, h, stopTargets, stopCalls] at this ⊢
      exact this

/-- A fresh object given a sequence of partition ids keeps a snapshot of it,
whatever else happens in `Consumer_init`. -/
theorem Consumer_init_snapshot (K : RdKafka) (brokers topic_name : String)
    (ids : List PyObject) (start_offsets : PyArg) :
    (Consumer_init K Consumer_new
      (some ⟨brokers, topic_name, .seq ids, start_offsets⟩)).self.partition_ids = some ids := by
  unfold Consumer_init
  simp only [Consumer_new, PySequence_List]
  cases K.rd_kafka_new with
  | none => rfl
  | some rk =>
    simp only
    split
    · rfl
    · cases K.rd_kafka_queue_new <;> rfl

/-- With a snapshot present `Consumer_dealloc` completes, and its stops are
the stop targets of the snapshot when a topic handle is present, none
otherwise. -/
theorem dealloc_stop_targets (K : RdKafka) (self : Consumer) (ids : List PyObject)
    (hsnap : self.partition_ids = some ids) :
    ∃ s2 calls, Consumer_dealloc K self = some (s2, calls)
      ∧ stopCalls calls = if self.rdk_topic_handle.isSome then stopTargets ids else [] := by
  obtain ⟨rk, rkqu, rkt, p⟩ := self
  simp only at hsnap
  subst hsnap
  cases rk <;> cases rkqu <;> cases rkt <;> refine ⟨_, _, rfl, ?_⟩ <;>
    simp [stopCalls_append, stopCalls, stopCalls_Consumer_dealloc_loop]

/-- The start loop cannot run to the end when the offsets run out first: it
returns `-1`. -/
theorem Consumer_init_loop_short_offsets (K : RdKafka) (rkt : Option Handle) (rkqu : Handle)
    (offs : List PyObject) :
    ∀ (rest : List PyObject) (i : Nat) (pyerr : Bool),
      i ≤ offs.length → offs.length < i + rest.length →
      (Consumer_init_loop K rkt rkqu (.seq offs) rest i pyerr).1 = -1 := by
  intro rest
  induction rest with
  | nil => intro i pyerr h1 h2; simp at h2; omega
  | cons item rest ih =>
    intro i pyerr h1 h2
    unfold Consumer_init_loop
    simp only
    split
    · rfl
    · cases hget : PySequence_GetItem (.seq offs) i with
      | none => rfl
      | some off =>
        simp only
        split
        · rfl
        · have hi : i < offs.length := by
            by_contra hc
            have : offs.length ≤ i := by omega
            simp only [PySequence_GetItem, List.get?_eq_getElem?] at hget
            rw [List.getElem?_eq_none this] at hget
            cases hget
          exact ih (i + 1) _ (by omega) (by simp at h2; omega)

/-! ## Construction followed by teardown: loops -/

/-- C1, as amended: for partition ids that fit `int32_t` and start offsets that
fit `long long`, of equal length, when the client handle, the broker list, the
topic and the queue are obtained and every fetch start succeeds,
`Consumer_init` on a fresh object returns `0`, leaves the three handles
present, stores a snapshot equal to `partition_ids`, and its calls are the six
set-up calls followed by exactly one fetch start per index, in index order,
with partition `partition_ids[i]`, offset `start_offsets[i]`, the topic
handle and the one queue handle. -/
theorem Consumer_init_starts_every_partition (K : RdKafka) (brokers topic_name : String)
    (ids offs : List Int) (rk rkt rkqu : Handle)
    (hlen : ids.length = offs.length)
    (hids : ∀ v ∈ ids, INT_MIN ≤ v ∧ v ≤ INT_MAX)
    (hoffs : ∀ o ∈ offs, LONG_MIN ≤ o ∧ o ≤ LONG_MAX)
    (hnew : K.rd_kafka_new = some rk)
    (hadd : K.rd_kafka_brokers_add ≠ 0)
    (htopic : K.rd_kafka_topic_new = some rkt)
    (hqueue : K.rd_kafka_queue_new = some rkqu)
    (hstart : ∀ i, i < ids.length → K.rd_kafka_consume_start_queue i ≠ -1) :
    Consumer_init K Consumer_new
        (some ⟨brokers, topic_name, .seq (ids.map .int), .seq (offs.map .int)⟩)
      = ⟨0,
         { rdk_handle := some rk, rdk_queue_handle := some rkqu,
           rdk_topic_handle := some rkt, partition_ids := some (ids.map .int) },
         [Call.rd_kafka_conf_new, Call.rd_kafka_new (some rk),
          Call.rd_kafka_brokers_add rk brokers K.rd_kafka_brokers_add,
          Call.rd_kafka_topic_conf_new, Call.rd_kafka_topic_new rk topic_name (some rkt),
          Call.rd_kafka_queue_new rk (some rkqu)]
         ++ (ids.zip offs).enum.map (fun x =>
              Call.rd_kafka_consume_start_queue (some rkt) x.2.1 x.2.2 rkqu
                (K.rd_kafka_consume_start_queue x.1))⟩ := by
  have hloop := Consumer_init_loop_all_ok K (some rkt) rkqu offs hoffs ids 0 hids
    (by omega) (fun j _ hj => hstart j (by omega))
  simp only [List.drop_zero] at hloop
  simp [Consumer_init, Consumer_new, PySequence_List, hnew, hadd, htopic, hqueue, hloop,
    List.enum]

/-- Witness for C1: `partition_ids=[0,1]`, `start_offsets=[100,200]` starts
`(0,100)` then `(1,200)`. -/
theorem Consumer_init_starts_every_partition_witness :
    Consumer_init okLib Consumer_new
        (some ⟨"broker:9092", "topic", .seq [.int 0, .int 1], .seq [.int 100, .int 200]⟩)
      = ⟨0,
         { rdk_handle := some 1, rdk_queue_handle := some 3,
           rdk_topic_handle := some 2, partition_ids := some [.int 0, .int 1] },
         [Call.rd_kafka_conf_new, Call.rd_kafka_new (some 1),
          Call.rd_kafka_brokers_add 1 "broker:9092" 1,
          Call.rd_kafka_topic_conf_new, Call.rd_kafka_topic_new 1 "topic" (some 2),
          Call.rd_kafka_queue_new 1 (some 3),
          Call.rd_kafka_consume_start_queue (some 2) 0 100 3 0,
          Call.rd_kafka_consume_start_queue (some 2) 1 200 3 0]⟩ :=
  Consumer_init_starts_every_partition okLib "broker:9092" "topic" [0, 1] [100, 200] 1 2 3
    rfl (by decide) (by decide) rfl (by decide) rfl rfl (fun i _ => by simp [okLib])

/-- C1 as stated fails outside the C integer ranges: the partition id `2^32`
is started as partition `0` (conversion to `int32_t`), and the start offset
`2^63` is started as offset `-1` (failed `PyLong_AsLongLong`, unchecked),
although every collaborator call succeeds and the lengths are equal. -/
theorem out_of_range_ids_and_offsets_are_converted :
    startCalls (Consumer_init okLib Consumer_new
        (some ⟨"broker:9092", "topic", .seq [.int 4294967296], .seq [.int 0]⟩)).calls
      = [(0, 0, 0)]
    ∧ startCalls (Consumer_init okLib Consumer_new
        (some ⟨"broker:9092", "topic", .seq [.int 4294967296], .seq [.int 0]⟩)).calls
      ≠ [(4294967296, 0, 0)]
    ∧ startCalls (Consumer_init okLib Consumer_new
        (some ⟨"broker:9092", "topic", .seq [.int 0], .seq [.int 9223372036854775808]⟩)).calls
      = [(0, -1, 0)] := by
  decide

/-! ## Construction: a rejected fetch start -/

/-- C4: on a fresh object, when the client handle, the broker list, the topic
and the queue are obtained and the fetch start for index `k` is the first one
the collaborator rejects (the starts for the indices below `k` succeed),
`Consumer_init` returns `-1` and has made exactly `k + 1` fetch starts: the
start number `i`, for every `i ≤ k`, is the one for index `i` (partition and
offset converted from `partition_ids[i]` and `start_offsets[i]`, answered by
the collaborator answer number `i`), so no start is made for an index above
`k`. That the loop gets as far as index `k` is a condition on the arguments
alone: up to index `k` the partition id and the offset exist and the id
converts to a C `long`, and no earlier offset failed to convert where an id
converts to partition `-1`. -/
theorem Consumer_init_first_rejected_start (K : RdKafka) (brokers topic_name : String)
    (ids : List PyObject) (start_offsets : PyArg) (rk rkt rkqu : Handle) (k : Nat)
    (hnew : K.rd_kafka_new = some rk)
    (hadd : K.rd_kafka_brokers_add ≠ 0)
    (htopic : K.rd_kafka_topic_new = some rkt)
    (hqueue : K.rd_kafka_queue_new = some rkqu)
    (hitems : ∀ i, i ≤ k → ∃ item off,
        ids[i]? = some item ∧ PySequence_GetItem start_offsets i = some off
        ∧ (PyInt_AsLong item).err = false
        ∧ (to_int32 (PyInt_AsLong item).val = -1 →
            ∀ j, j < i → ∀ offj, PySequence_GetItem start_offsets j = some offj →
              (PyLong_AsLongLong offj).err = false))
    (hk : K.rd_kafka_consume_start_queue k = -1)
    (hfirst : ∀ i, i < k → K.rd_kafka_consume_start_queue i ≠ -1) :
    (Consumer_init K Consumer_new
        (some ⟨brokers, topic_name, .seq ids, start_offsets⟩)).ret = -1
    ∧ (startCalls (Consumer_init K Consumer_new
        (some ⟨brokers, topic_name, .seq ids, start_offsets⟩)).calls).length = k + 1
    ∧ ∀ i, i ≤ k → ∃ item off,
        ids[i]? = some item ∧ PySequence_GetItem start_offsets i = some off
        ∧ (startCalls (Consumer_init K Consumer_new
            (some ⟨brokers, topic_name, .seq ids, start_offsets⟩)).calls)[i]?
          = some (to_int32 (PyInt_AsLong item).val, (PyLong_AsLongLong off).val,
                  K.rd_kafka_consume_start_queue i) := by
  have hcalls : startCalls (Consumer_init K Consumer_new
        (some ⟨brokers, topic_name, .seq ids, start_offsets⟩)).calls
      = startCalls (Consumer_init_loop K (some rkt) rkqu start_offsets ids 0 false).2 := by
    simp [Consumer_init, Consumer_new, PySequence_List, hnew, hadd, htopic, hqueue, startCalls]
  have hret : (Consumer_init K Consumer_new
        (some ⟨brokers, topic_name, .seq ids, start_offsets⟩)).ret
      = (Consumer_init_loop K (some rkt) rkqu start_offsets ids 0 false).1 := by
    simp [Consumer_init, Consumer_new, PySequence_List, hnew, hadd, htopic, hqueue]
  have hreach := Consumer_init_loop_reaches K (some rkt) rkqu start_offsets ids 0 false k
    (fun m hm => by
      obtain ⟨it, of, ha, hb, hc, hd⟩ := hitems m hm
      refine ⟨it, of, ha, by simpa using hb, hc, fun h1 => ⟨rfl, ?_⟩⟩
      intro j hj offj hgj
      exact hd h1 j hj offj (by simpa using hgj))
    (fun m hm => by simpa using hfirst m hm)
  have h := Consumer_init_loop_first_reject K (some rkt) rkqu start_offsets ids 0 false k
    hreach (by simpa using hk) (fun m hm => by simpa using hfirst m hm)
  rw [hcalls, hret]
  simpa using h

/-- Witness for C4: three partitions, the fetch start for index 1 is
rejected; the result is `-1` after two starts, for partitions 0 and 1. -/
theorem Consumer_init_first_rejected_start_witness :
    (Consumer_init rejectSecondStartLib Consumer_new
        (some ⟨"broker:9092", "topic", .seq [.int 0, .int 1, .int 2],
          .seq [.int 100, .int 200, .int 300]⟩)).ret = -1
    ∧ (startCalls (Consumer_init rejectSecondStartLib Consumer_new
        (some ⟨"broker:9092", "topic", .seq [.int 0, .int 1, .int 2],
          .seq [.int 100, .int 200, .int 300]⟩)).calls).length = 1 + 1 :=
  have h := Consumer_init_first_rejected_start rejectSecondStartLib
    "broker:9092" "topic" [.int 0, .int 1, .int 2] (.seq [.int 100, .int 200, .int 300])
    1 2 3 1 rfl (by decide) rfl rfl
    (fun i hi => by
      have hi2 : i = 0 ∨ i = 1 := by omega
      rcases hi2 with h0 | h1
      · subst h0
        exact ⟨.int 0, .int 100, rfl, rfl, rfl, fun h => absurd h (by decide)⟩
      · subst h1
        exact ⟨.int 1, .int 200, rfl, rfl, rfl, fun h => absurd h (by decide)⟩)
    (by decide)
    (fun i hi => by
      have h0 : i = 0 := by omega
      subst h0
      decide)
  ⟨h.1, h.2.1⟩

/-! ## Teardown -/

/-- C5, as amended: for every session whose topic handle is present and whose
snapshot holds N partition ids, each an integer that fits `int32_t` and is not
`-1` (so every non-negative id below `2^31`), `Consumer_dealloc` completes and
its calls are exactly N fetch
stops, one per partition in the snapshot's order and whatever the stops
return, then the destruction of the topic handle, then that of the queue
handle (when present), then that of the connection handle (when present); all
handles and the snapshot are cleared. -/
theorem Consumer_dealloc_stops_then_destroys (K : RdKafka) (self : Consumer) (rkt : Handle)
    (ids : List Int)
    (htopic : self.rdk_topic_handle = some rkt)
    (hsnap : self.partition_ids = some (ids.map .int))
    (hids : ∀ v ∈ ids, INT_MIN ≤ v ∧ v ≤ INT_MAX ∧ v ≠ -1) :
    Consumer_dealloc K self
      = some ({ rdk_handle := none, rdk_queue_handle := none, rdk_topic_handle := none,
                partition_ids := none },
              ids.enum.map (fun x =>
                  Call.rd_kafka_consume_stop rkt x.2 (K.rd_kafka_consume_stop x.1))
              ++ [Call.rd_kafka_topic_destroy rkt]
              ++ (self.rdk_queue_handle.map Call.rd_kafka_queue_destroy).toList
              ++ (self.rdk_handle.map Call.rd_kafka_destroy).toList) := by
  obtain ⟨rk, rkqu, t, p⟩ := self
  simp only at htopic hsnap
  subst htopic hsnap
  have hloop := Consumer_dealloc_loop_in_range K rkt ids 0 hids
  cases rk <;> cases rkqu <;> simp [Consumer_dealloc, hloop, List.enum]

/-- Witness for C5: two partitions, the first stop fails, all three handles
present. -/
theorem Consumer_dealloc_stops_then_destroys_witness :
    Consumer_dealloc failFirstStopLib
        { rdk_handle := some 1, rdk_queue_handle := some 3, rdk_topic_handle := some 2,
          partition_ids := some [.int 0, .int 1] }
      = some ({ rdk_handle := none, rdk_queue_handle := none, rdk_topic_handle := none,
                partition_ids := none },
              [Call.rd_kafka_consume_stop 2 0 (-1), Call.rd_kafka_consume_stop 2 1 0,
               Call.rd_kafka_topic_destroy 2, Call.rd_kafka_queue_destroy 3,
               Call.rd_kafka_destroy 1]) :=
  Consumer_dealloc_stops_then_destroys failFirstStopLib
    { rdk_handle := some 1, rdk_queue_handle := some 3, rdk_topic_handle := some 2,
      partition_ids := some [.int 0, .int 1] }
    2 [0, 1] rfl rfl (by decide)

/-- C5 as stated fails for non-negative ids outside the C integer ranges: a
snapshot holding the one id `2^63` gets no stop call at all (the conversion
fails and the item is skipped), and a snapshot holding the one id `2^32` gets
a stop call for partition `0`. Among the negative ids, `-1` is skipped as
well. -/
theorem out_of_range_ids_are_skipped_or_truncated :
    (Consumer_dealloc okLib
        { rdk_handle := some 1, rdk_queue_handle := some 3, rdk_topic_handle := some 2,
          partition_ids := some [.int 9223372036854775808] }).map (fun r => stopCalls r.2)
      = some []
    ∧ (Consumer_dealloc okLib
        { rdk_handle := some 1, rdk_queue_handle := some 3, rdk_topic_handle := some 2,
          partition_ids := some [.int 4294967296] }).map (fun r => stopCalls r.2)
      = some [0]
    ∧ (Consumer_dealloc okLib
        { rdk_handle := some 1, rdk_queue_handle := some 3, rdk_topic_handle := some 2,
          partition_ids := some [.int (-1)] }).map (fun r => stopCalls r.2)
      = some [] := by
  decide

/-- C6: for every session state on which `Consumer_dealloc` completes, running
its steps again on the state it leaves makes no call at all to the
collaborator (no stop, no destroy) and leaves that state unchanged, with the
three handles absent. -/
theorem Consumer_dealloc_idempotent (K K2 : RdKafka) (self s1 : Consumer) (calls : List Call)
    (hfirst : Consumer_dealloc K self = some (s1, calls)) :
    Consumer_dealloc K2 s1 = some (s1, [])
    ∧ s1.rdk_handle = none ∧ s1.rdk_queue_handle = none ∧ s1.rdk_topic_handle = none := by
  obtain ⟨rk, rkqu, rkt, p⟩ := self
  cases rk <;> cases rkqu <;> cases rkt <;> cases p <;>
    simp [Consumer_dealloc] at hfirst <;>
    (obtain ⟨h1, _⟩ := hfirst; subst h1; simp [Consumer_dealloc])

/-- Witness for C6: after the teardown of a live session, a second teardown
makes no call. -/
theorem Consumer_dealloc_idempotent_witness :
    Consumer_dealloc okLib Consumer_new = some (Consumer_new, []) :=
  (Consumer_dealloc_idempotent okLib okLib liveSession Consumer_new
    [Call.rd_kafka_consume_stop 2 1 0, Call.rd_kafka_topic_destroy 2,
     Call.rd_kafka_queue_destroy 3, Call.rd_kafka_destroy 1]
    (by decide)).1

/-! ## Consuming -/

/-- C8 fails on the code: the end-of-partition event (`err` is
`RD_KAFKA_RESP_ERR__PARTITION_EOF`, not zero) is returned as the tuple
`(payload, key, partition, offset)`, equal to what an ordinary record with the
same fields yields. -/
theorem Consumer_consume_forwards_error_message :
    eofMessage.err ≠ 0
    ∧ (Consumer_consume (pendingLib eofMessage) liveSession (.int 1000)).1
        = ConsumeResult.tuple (some [104, 105]) Option.none 1 42
    ∧ (Consumer_consume (pendingLib eofMessage) liveSession (.int 1000)).1
        = (Consumer_consume (pendingLib recordMessage) liveSession (.int 1000)).1 := by
  decide

/-! ## Construction failures -/

/-- When the client handle, the broker list and the queue are obtained and
`start_offsets` is a sequence shorter than `partition_ids`, `Consumer_init` on
a fresh object returns `-1`. -/
theorem Consumer_init_short_offsets_fails (K : RdKafka) (brokers topic_name : String)
    (ids offs : List PyObject) (rk rkqu : Handle)
    (hshort : offs.length < ids.length)
    (hnew : K.rd_kafka_new = some rk)
    (hadd : K.rd_kafka_brokers_add ≠ 0)
    (hqueue : K.rd_kafka_queue_new = some rkqu) :
    (Consumer_init K Consumer_new
      (some ⟨brokers, topic_name, .seq ids, .seq offs⟩)).ret = -1 := by
  have h := Consumer_init_loop_short_offsets K K.rd_kafka_topic_new rkqu offs ids 0 false
    (by omega) (by omega)
  simp [Consumer_init, Consumer_new, PySequence_List, hnew, hadd, hqueue, h]

/-- C2 fails on the code: with `partition_ids=[0]` and `start_offsets=[]`, when
the client handle cannot be created `Consumer_init` returns `0` (success), and
so it does when the queue cannot be created. -/
theorem Consumer_init_short_offsets_reports_success :
    (Consumer_init noClientLib Consumer_new
        (some ⟨"broker:9092", "topic", .seq [.int 0], .seq []⟩)).ret = 0
    ∧ (Consumer_init noQueueLib Consumer_new
        (some ⟨"broker:9092", "topic", .seq [.int 0], .seq []⟩)).ret = 0 := by
  decide

/-- C3 fails on the code: `Consumer_init` returns `0` (success) when the client
handle cannot be created, when no broker could be added, and when the queue
cannot be created. -/
theorem Consumer_init_connection_failure_reports_success :
    (Consumer_init noClientLib Consumer_new
        (some ⟨"broker:9092", "topic", .seq [.int 0], .seq [.int 100]⟩)).ret = 0
    ∧ (Consumer_init noBrokerLib Consumer_new
        (some ⟨"broker:9092", "topic", .seq [.int 0], .seq [.int 100]⟩)).ret = 0
    ∧ (Consumer_init noQueueLib Consumer_new
        (some ⟨"broker:9092", "topic", .seq [.int 0], .seq [.int 100]⟩)).ret = 0 := by
  decide

/-! ## Construction followed by teardown -/

/-- The two conditions of C9 on the collaborator cannot be dropped: were a
fetch start for the id `-1` accepted, `Consumer_dealloc` would skip its stop
(`part_id == -1`), and were a fetch start on an absent topic handle accepted,
`Consumer_dealloc` would make no stop at all. -/
theorem accepted_start_without_stop :
    startCalls (Consumer_init okLib Consumer_new
        (some ⟨"broker:9092", "topic", .seq [.int (-1)], .seq [.int 0]⟩)).calls
      = [(-1, 0, 0)]
    ∧ (Consumer_dealloc okLib (Consumer_init okLib Consumer_new
        (some ⟨"broker:9092", "topic", .seq [.int (-1)], .seq [.int 0]⟩)).self).map
          (fun r => stopCalls r.2)
      = some []
    ∧ startCalls (Consumer_init noTopicLib Consumer_new
        (some ⟨"broker:9092", "topic", .seq [.int 0], .seq [.int 0]⟩)).calls
      = [(0, 0, 0)]
    ∧ (Consumer_dealloc noTopicLib (Consumer_init noTopicLib Consumer_new
        (some ⟨"broker:9092", "topic", .seq [.int 0], .seq [.int 0]⟩)).self).map
          (fun r => stopCalls r.2)
      = some [] := by
  decide

/-- C10, as amended: for every construction on a fresh object followed by
teardown, `Consumer_dealloc` completes and its stop calls are determined by
the snapshot of `partition_ids` alone, not by which fetches were started: when
the topic handle is present, one stop per snapshot entry that converts to a C
`long` other than `-1`, in snapshot order; when it is absent, none. -/
theorem Consumer_dealloc_stops_snapshot_entries (K : RdKafka) (brokers topic_name : String)
    (ids : List PyObject) (start_offsets : PyArg) :
    ∃ s2 calls,
      Consumer_dealloc K (Consumer_init K Consumer_new
        (some ⟨brokers, topic_name, .seq ids, start_offsets⟩)).self = some (s2, calls)
      ∧ stopCalls calls =
          if (Consumer_init K Consumer_new
                (some ⟨brokers, topic_name, .seq ids, start_offsets⟩)).self.rdk_topic_handle.isSome
          then stopTargets ids else [] :=
  dealloc_stop_targets K _ ids (Consumer_init_snapshot K brokers topic_name ids start_offsets)

/-- C10 as stated fails: with `partition_ids=[0,1]` and `start_offsets=[5]`
construction fails after starting partition `0` only, and teardown stops
partitions `0` and `1`; when the queue cannot be created no fetch is started,
and teardown still stops partition `0`. -/
theorem never_started_partitions_are_stopped :
    (Consumer_init okLib Consumer_new
        (some ⟨"broker:9092", "topic", .seq [.int 0, .int 1], .seq [.int 5]⟩)).ret = -1
    ∧ startCalls (Consumer_init okLib Consumer_new
        (some ⟨"broker:9092", "topic", .seq [.int 0, .int 1], .seq [.int 5]⟩)).calls
      = [(0, 5, 0)]
    ∧ (Consumer_dealloc okLib (Consumer_init okLib Consumer_new
        (some ⟨"broker:9092", "topic", .seq [.int 0, .int 1], .seq [.int 5]⟩)).self).map
          (fun r => stopCalls r.2)
      = some [0, 1]
    ∧ startCalls (Consumer_init noQueueLib Consumer_new
        (some ⟨"broker:9092", "topic", .seq [.int 0], .seq [.int 5]⟩)).calls
      = []
    ∧ (Consumer_dealloc noQueueLib (Consumer_init noQueueLib Consumer_new
        (some ⟨"broker:9092", "topic", .seq [.int 0], .seq [.int 5]⟩)).self).map
          (fun r => stopCalls r.2)
      = some [0] := by
  decide

end Pykafka
